import Mathlib

/-!
Verification development for the library-stats dashboard (`src/lib.py`).

The script loads a pandas table of lending records, applies a date-range
filter on `issue_date` and a multiselect filter per present categorical
column, then computes four metrics, renders up to five charts, previews
the filtered rows, and offers an Excel export.

Embedding conventions:
  - A table cell is an `Option` value; `none` models a pandas missing value
    (`NaN` / `NaT`).
  - Column presence (`col in df.columns`) is a per-column `Bool` flag in
    `Cols`, separate from per-cell missingness.
  - Dates are `Nat` ordinals (days); pandas comparisons against `NaT`
    evaluate to `False`, which the embedding makes explicit.
  - A pandas operation that raises (column access on a missing column,
    i.e. `KeyError`) is embedded in `Except String`.
-/

/-- Row of the lending-records table. Each field is one recognized column's
cell in that row; `none` is a missing value in a present column. -/
structure Row where
  borrower_id : Option String
  book_title : Option String
  genre : Option String
  borrower_type : Option String
  student_batch : Option String
  student_major : Option String
  borrower_age_group : Option String
  issue_date : Option Nat
  due_date : Option Nat
  return_date : Option Nat
  overdue_status : Option String
  days_on_loan : Option Int
deriving DecidableEq, Repr

/-- Which recognized columns are present in the loaded table
(`col in df.columns` in the script). -/
structure Cols where
  borrower_id : Bool
  book_title : Bool
  genre : Bool
  borrower_type : Bool
  student_batch : Bool
  student_major : Bool
  borrower_age_group : Bool
  issue_date : Bool
  due_date : Bool
  return_date : Bool
  overdue_status : Bool
  days_on_loan : Bool
deriving DecidableEq, Repr

/-- The loaded dataframe: its present columns and its rows. -/
structure Table where
  cols : Cols
  rows : List Row
deriving DecidableEq, Repr

/-- Sidebar filter state: the date-range slider value `(lo, hi)` and one
multiselect selection per categorical filter column. A selection list may
contain `none` because `df[col].unique()` includes a missing value when one
occurs, and pandas `isin` matches missing against missing. -/
structure FilterState where
  lo : Nat
  hi : Nat
  genreSel : List (Option String)
  borrowerTypeSel : List (Option String)
  studentBatchSel : List (Option String)
  studentMajorSel : List (Option String)
  ageGroupSel : List (Option String)
deriving DecidableEq, Repr

/-- Date-range mask for one cell, from
`(s.dt.date >= lo) & (s.dt.date <= hi)` (lib.py lines 42-45).
A missing `issue_date` is `NaT`; pandas comparisons on `NaT` are `False`,
so such a row never passes. -/
def datePred (lo hi : Nat) (cell : Option Nat) : Bool :=
  match cell with
  | none => false
  | some d => decide (lo ≤ d) && decide (d ≤ hi)

/-- One step of the categorical-filter loop (lib.py lines 56-65):
`if col in df.columns: ... if selected: filtered = filtered[filtered[col].isin(selected)]`.
An absent column contributes no widget; an empty selection applies no mask. -/
def applyCatFilter (present : Bool) (sel : List (Option String))
    (get : Row → Option String) (rows : List Row) : List Row :=
  if present then
    if sel.isEmpty then rows
    else rows.filter (fun r => sel.contains (get r))
  else rows

/-- Date-filter stage (lib.py lines 33-45): when `issue_date` is present,
keep the rows whose date passes the range mask; otherwise leave the copy of
the loaded rows untouched. -/
def dateStage (t : Table) (fs : FilterState) : List Row :=
  if t.cols.issue_date then
    t.rows.filter (fun r => datePred fs.lo fs.hi r.issue_date)
  else t.rows

/-- The filtered view `filtered_df` (lib.py lines 30-65): start from a copy
of the loaded rows, apply the date mask when `issue_date` is present, then
the five categorical filters in the script's dictionary order (innermost
application first: genre, borrower_type, student_batch, student_major,
borrower_age_group). -/
def filtered_df (t : Table) (fs : FilterState) : List Row :=
  applyCatFilter t.cols.borrower_age_group fs.ageGroupSel Row.borrower_age_group
    (applyCatFilter t.cols.student_major fs.studentMajorSel Row.student_major
      (applyCatFilter t.cols.student_batch fs.studentBatchSel Row.student_batch
        (applyCatFilter t.cols.borrower_type fs.borrowerTypeSel Row.borrower_type
          (applyCatFilter t.cols.genre fs.genreSel Row.genre (dateStage t fs)))))

/-- Boolean test that `pat` occurs at the very front of `s`. -/
def matchAt : List Char → List Char → Bool
  | [], _ => true
  | _ :: _, [] => false
  | a :: as, b :: bs => a == b && matchAt as bs

/-- Boolean test that `pat` occurs as a contiguous run somewhere in `s`;
this is what the regex `str.contains` check does for a literal pattern. -/
def hasSubstr (pat : List Char) : List Char → Bool
  | [] => matchAt pat []
  | b :: bs => matchAt pat (b :: bs) || hasSubstr pat bs

/-- Specification-level statement that `pat` is a case-sensitive substring
of `s`. -/
def occursIn (pat s : String) : Prop :=
  ∃ a b : List Char, s.data = a ++ pat.data ++ b

/-- Mask of one `overdue_status` cell under
`.str.contains('Late|Overdue', na=False)` (lib.py line 74): the pattern is
a regex alternation of the two literals, matched case-sensitively as a
substring; `na=False` sends a missing cell to `False` instead of an error. -/
def lateMask (cell : Option String) : Bool :=
  match cell with
  | none => false
  | some s => hasSubstr ("Late".data) s.data || hasSubstr ("Overdue".data) s.data

/-- Count of distinct non-missing values, pandas `Series.nunique()`
(missing values are not counted). -/
def nuniqueBorrower (view : List Row) : Nat :=
  ((view.filterMap Row.borrower_id).dedup).length

/-- Count of rows whose `return_date` cell is missing,
pandas `isna().sum()` (lib.py line 73). -/
def countNotReturned (view : List Row) : Nat :=
  (view.map Row.return_date).countP Option.isNone

/-- Count of rows whose `overdue_status` matches the late pattern
(lib.py line 74). -/
def countLate (view : List Row) : Nat :=
  (view.map Row.overdue_status).countP lateMask

/-- The metrics strip (lib.py lines 70-75). Unlike the filters and charts,
this block does NOT guard column presence: `filtered_df['borrower_id']`,
`filtered_df['return_date']` and `filtered_df['overdue_status']` are
evaluated unconditionally, in that order, and raise `KeyError` when the
column is absent; the embedding returns the error of the first absent one. -/
def metrics (t : Table) (view : List Row) : Except String (Nat × Nat × Nat × Nat) :=
  if t.cols.borrower_id = false then Except.error "KeyError: borrower_id"
  else if t.cols.return_date = false then Except.error "KeyError: return_date"
  else if t.cols.overdue_status = false then Except.error "KeyError: overdue_status"
  else Except.ok (view.length, nuniqueBorrower view, countNotReturned view, countLate view)

/-- Labels of the sidebar widgets the script creates (lib.py lines 33-63):
the date slider when `issue_date` is present, and one multiselect per
present categorical column, with the script's labels. -/
def sidebarWidgets (t : Table) : List String :=
  (if t.cols.issue_date then ["Date range"] else []) ++
  (if t.cols.genre then ["Book Genres"] else []) ++
  (if t.cols.borrower_type then ["Borrower Types"] else []) ++
  (if t.cols.student_batch then ["Student Batches"] else []) ++
  (if t.cols.student_major then ["Student Majors"] else []) ++
  (if t.cols.borrower_age_group then ["Age Groups"] else [])

/-- The five charts the visualization section can render. -/
inductive Chart where
  | monthlyIssues
  | topBooks
  | genrePie
  | borrowerTypeBar
  | avgLoanByGenre
deriving DecidableEq, Repr

/-- Which charts the visualization section renders (lib.py lines 107-132):
nothing when the filtered view is empty; otherwise each chart is rendered
exactly when its required column(s) are present. -/
def visualizations (t : Table) (view : List Row) : List Chart :=
  if view.isEmpty then []
  else
    (if t.cols.issue_date then [Chart.monthlyIssues] else []) ++
    (if t.cols.book_title then [Chart.topBooks] else []) ++
    (if t.cols.genre then [Chart.genrePie] else []) ++
    (if t.cols.borrower_type then [Chart.borrowerTypeBar] else []) ++
    (if t.cols.days_on_loan && t.cols.genre then [Chart.avgLoanByGenre] else [])

/-- One serialized spreadsheet cell; the constructors keep the three cell
types of the data model apart. -/
inductive Cell where
  | s (v : Option String)
  | d (v : Option Nat)
  | n (v : Option Int)
deriving DecidableEq, Repr

/-- Names of the present columns, in the data model's column order. -/
def columnNames (c : Cols) : List String :=
  (if c.borrower_id then ["borrower_id"] else []) ++
  (if c.book_title then ["book_title"] else []) ++
  (if c.genre then ["genre"] else []) ++
  (if c.borrower_type then ["borrower_type"] else []) ++
  (if c.student_batch then ["student_batch"] else []) ++
  (if c.student_major then ["student_major"] else []) ++
  (if c.borrower_age_group then ["borrower_age_group"] else []) ++
  (if c.issue_date then ["issue_date"] else []) ++
  (if c.due_date then ["due_date"] else []) ++
  (if c.return_date then ["return_date"] else []) ++
  (if c.overdue_status then ["overdue_status"] else []) ++
  (if c.days_on_loan then ["days_on_loan"] else [])

/-- Cells of one exported row, restricted to the present columns, in the
same order as `columnNames`. -/
def rowCells (c : Cols) (r : Row) : List Cell :=
  (if c.borrower_id then [Cell.s r.borrower_id] else []) ++
  (if c.book_title then [Cell.s r.book_title] else []) ++
  (if c.genre then [Cell.s r.genre] else []) ++
  (if c.borrower_type then [Cell.s r.borrower_type] else []) ++
  (if c.student_batch then [Cell.s r.student_batch] else []) ++
  (if c.student_major then [Cell.s r.student_major] else []) ++
  (if c.borrower_age_group then [Cell.s r.borrower_age_group] else []) ++
  (if c.issue_date then [Cell.d r.issue_date] else []) ++
  (if c.due_date then [Cell.d r.due_date] else []) ++
  (if c.return_date then [Cell.d r.return_date] else []) ++
  (if c.overdue_status then [Cell.s r.overdue_status] else []) ++
  (if c.days_on_loan then [Cell.n r.days_on_loan] else [])

/-- The exported spreadsheet content: a single sheet with a header row and
one body row per record, no index column. -/
structure ExcelBlob where
  header : List String
  body : List (List Cell)
deriving DecidableEq, Repr

/-- The Excel serialization `convert_to_excel` (lib.py lines 138-143):
`df.to_excel(writer, index=False)` writes the header row followed by the
view's rows; its output is a pure function of the view's columns and rows. -/
def convert_to_excel (t : Table) (view : List Row) : ExcelBlob :=
  { header := columnNames t.cols, body := view.map (rowCells t.cols) }

/-- The download section (lib.py lines 145-152): the blob is produced and
the button offered only when the filtered view is non-empty. -/
def download (t : Table) (view : List Row) : Option ExcelBlob :=
  if view.isEmpty then none else some (convert_to_excel t view)

/-- Session state of the script: the loaded table and the binding that the
name `filtered_df` currently holds. -/
structure Session where
  df : Table
  filtered_rows : List Row
deriving DecidableEq, Repr

/-- The whole filter pass as a state transition (lib.py lines 30-65):
`filtered_df = df.copy()` starts from a copy, and every later line only
rebinds `filtered_df` to a fresh boolean-mask selection; no pandas call in
the pass writes into `df`. -/
def runFilters (s : Session) (fs : FilterState) : Session :=
  { df := s.df, filtered_rows := filtered_df s.df fs }

/-- Whether the metrics block runs to completion (`true`) or raises
(`false`). -/
def metricsOk (t : Table) (view : List Row) : Bool :=
  match metrics t view with
  | Except.ok _ => true
  | Except.error _ => false

/-- Two successive invocations of the Excel serialization on the unchanged
filtered view, as the script performs once per rerun. -/
def exportTwice (t : Table) (view : List Row) : ExcelBlob × ExcelBlob :=
  (convert_to_excel t view, convert_to_excel t view)

/-- Sample row: a fiction loan issued on day 10, not yet returned, marked
late. -/
def rowA : Row :=
  { borrower_id := some "B1", book_title := some "Dune", genre := some "Fiction",
    borrower_type := some "Student", student_batch := some "2021",
    student_major := some "CS", borrower_age_group := some "18-25",
    issue_date := some 10, due_date := some 20, return_date := none,
    overdue_status := some "Late return", days_on_loan := some 14 }

/-- Sample row: a drama loan issued on day 15, returned on time. -/
def rowB : Row :=
  { rowA with
    borrower_id := some "B2", book_title := some "Hamlet",
    genre := some "Drama", issue_date := some 15, return_date := some 30,
    overdue_status := some "On time" }

/-- Sample row with a missing `issue_date` cell. -/
def rowND : Row :=
  { rowA with issue_date := none }

/-- Column set with every recognized column present. -/
def colsAll : Cols :=
  { borrower_id := true, book_title := true, genre := true,
    borrower_type := true, student_batch := true, student_major := true,
    borrower_age_group := true, issue_date := true, due_date := true,
    return_date := true, overdue_status := true, days_on_loan := true }

/-- Sample table with all columns and two rows. -/
def tableEx : Table :=
  { cols := colsAll, rows := [rowA, rowB] }

/-- Sample table whose `genre` column is absent. -/
def tableNoGenre : Table :=
  { cols := { colsAll with genre := false }, rows := [rowA, rowB] }

/-- Sample table whose `borrower_id` column is absent. -/
def tableNoBorrower : Table :=
  { cols := { colsAll with borrower_id := false }, rows := [rowA, rowB] }

/-- Sample table containing a row with a missing `issue_date`. -/
def tableWithND : Table :=
  { cols := colsAll, rows := [rowA, rowND] }

/-- Filter state selecting days 10-15 and the Fiction genre; the other
selections are empty. -/
def fsSel : FilterState :=
  { lo := 10, hi := 15, genreSel := [some "Fiction"], borrowerTypeSel := [],
    studentBatchSel := [], studentMajorSel := [], ageGroupSel := [] }

/-- Filter state with a wide date range and every selection empty. -/
def fsEmptySel : FilterState :=
  { lo := 0, hi := 100, genreSel := [], borrowerTypeSel := [],
    studentBatchSel := [], studentMajorSel := [], ageGroupSel := [] }

/-- Filter state whose genre selection matches no row of the samples. -/
def fsNoMatch : FilterState :=
  { fsEmptySel with genreSel := [some "Poetry"] }

/-- Filter state over days 10-15 with every categorical selection empty. -/
def fsBoundary : FilterState :=
  { fsEmptySel with lo := 10, hi := 15 }

/-- Membership in an `if`-guarded singleton list. -/
theorem mem_if_singleton {α : Type} (x a : α) (b : Bool) :
    x ∈ (if b then [a] else ([] : List α)) ↔ b = true ∧ x = a := by
  cases b <;> simp

/-- Membership characterization of one categorical-filter stage: a row
survives the stage exactly when it was there before and, whenever the
column is present with a non-empty selection, its cell is selected. -/
theorem mem_applyCatFilter {p : Bool} {sel : List (Option String)}
    {get : Row → Option String} {rows : List Row} {r : Row} :
    r ∈ applyCatFilter p sel get rows ↔
      r ∈ rows ∧ (p = true → sel ≠ [] → get r ∈ sel) := by
  unfold applyCatFilter
  cases p with
  | false => simp
  | true =>
    by_cases hsel : sel.isEmpty
    · have hnil : sel = [] := List.isEmpty_iff.mp hsel
      simp [hsel, hnil]
    · have hne : sel ≠ [] := by
        intro hcon
        exact hsel (by simp [hcon])
      simp [hsel, List.mem_filter, hne]

/-- Membership characterization of the date stage. -/
theorem mem_dateStage {t : Table} {fs : FilterState} {r : Row} :
    r ∈ dateStage t fs ↔
      r ∈ t.rows ∧ (t.cols.issue_date = true → datePred fs.lo fs.hi r.issue_date = true) := by
  unfold dateStage
  by_cases h : t.cols.issue_date = true
  · simp [h, List.mem_filter]
  · simp [h]

/-- Master membership characterization of the filtered view. -/
theorem mem_filtered_iff (t : Table) (fs : FilterState) (r : Row) :
    r ∈ filtered_df t fs ↔
      r ∈ t.rows
      ∧ (t.cols.issue_date = true → datePred fs.lo fs.hi r.issue_date = true)
      ∧ (t.cols.genre = true → fs.genreSel ≠ [] → r.genre ∈ fs.genreSel)
      ∧ (t.cols.borrower_type = true → fs.borrowerTypeSel ≠ [] →
          r.borrower_type ∈ fs.borrowerTypeSel)
      ∧ (t.cols.student_batch = true → fs.studentBatchSel ≠ [] →
          r.student_batch ∈ fs.studentBatchSel)
      ∧ (t.cols.student_major = true → fs.studentMajorSel ≠ [] →
          r.student_major ∈ fs.studentMajorSel)
      ∧ (t.cols.borrower_age_group = true → fs.ageGroupSel ≠ [] →
          r.borrower_age_group ∈ fs.ageGroupSel) := by
  unfold filtered_df
  simp only [mem_applyCatFilter, mem_dateStage]
  tauto

/-- Unfolded form of the date mask. -/
theorem datePred_iff (lo hi : Nat) (cell : Option Nat) :
    datePred lo hi cell = true ↔ ∃ d, cell = some d ∧ lo ≤ d ∧ d ≤ hi := by
  cases cell <;> simp [datePred]

/-- Each categorical stage returns a sublist of its input. -/
theorem applyCatFilter_sublist (p : Bool) (sel : List (Option String))
    (get : Row → Option String) (rows : List Row) :
    List.Sublist (applyCatFilter p sel get rows) rows := by
  unfold applyCatFilter
  split
  · split
    · exact List.Sublist.refl _
    · exact List.filter_sublist _
  · exact List.Sublist.refl _

/-- The date stage returns a sublist of the loaded rows. -/
theorem dateStage_sublist (t : Table) (fs : FilterState) :
    List.Sublist (dateStage t fs) t.rows := by
  unfold dateStage
  split
  · exact List.filter_sublist _
  · exact List.Sublist.refl _

/-- The filtered view is a sublist of the loaded rows. -/
theorem filtered_df_sublist (t : Table) (fs : FilterState) :
    List.Sublist (filtered_df t fs) t.rows := by
  unfold filtered_df
  exact ((((((applyCatFilter_sublist _ _ _ _).trans
    (applyCatFilter_sublist _ _ _ _)).trans
    (applyCatFilter_sublist _ _ _ _)).trans
    (applyCatFilter_sublist _ _ _ _)).trans
    (applyCatFilter_sublist _ _ _ _)).trans
    (dateStage_sublist t fs))

/-- Correctness of the front-match test. -/
theorem matchAt_iff : ∀ (p s : List Char), matchAt p s = true ↔ ∃ tl, s = p ++ tl
  | [], s => by simp [matchAt]
  | a :: as, [] => by simp [matchAt]
  | a :: as, b :: bs => by
    simp only [matchAt, Bool.and_eq_true, beq_iff_eq]
    constructor
    · rintro ⟨rfl, h⟩
      obtain ⟨tl, rfl⟩ := (matchAt_iff as bs).mp h
      exact ⟨tl, rfl⟩
    · rintro ⟨tl, h⟩
      rw [List.cons_append] at h
      injection h with h1 h2
      exact ⟨h1.symm, (matchAt_iff as bs).mpr ⟨tl, h2⟩⟩

/-- Correctness of the substring test: it decides the existence of a
decomposition around the pattern. -/
theorem hasSubstr_iff : ∀ (p s : List Char), hasSubstr p s = true ↔ ∃ a b, s = a ++ p ++ b
  | p, [] => by
    simp only [hasSubstr, matchAt_iff]
    constructor
    · rintro ⟨tl, h⟩
      have hp := List.append_eq_nil.mp h.symm
      exact ⟨[], [], by simp [hp.1, hp.2]⟩
    · rintro ⟨a, b, h⟩
      have h1 := List.append_eq_nil.mp h.symm
      have h2 := List.append_eq_nil.mp h1.1
      exact ⟨[], by simp [h2.2]⟩
  | p, c :: cs => by
    simp only [hasSubstr, Bool.or_eq_true, matchAt_iff, hasSubstr_iff p cs]
    constructor
    · rintro (⟨tl, h⟩ | ⟨a, b, h⟩)
      · exact ⟨[], tl, by simpa using h⟩
      · exact ⟨c :: a, b, by simp [h]⟩
    · rintro ⟨a, b, h⟩
      cases a with
      | nil =>
        left
        exact ⟨b, by simpa using h⟩
      | cons x xs =>
        right
        rw [List.cons_append, List.cons_append] at h
        injection h with h1 h2
        exact ⟨xs, b, h2⟩

/-- C1: for every loaded table (with `issue_date` present, which the claim
presupposes by speaking of a row's issue date), every date interval and
every family of categorical selections, a row of the table is in the
filtered view if and only if its `issue_date` falls in `[lo, hi]` and, for
every categorical filter column that is present with a non-empty
selection, the row's value for that column is a member of the selection. -/
theorem C1_filtered_view_membership (t : Table) (fs : FilterState) (r : Row)
    (hdate : t.cols.issue_date = true) :
    r ∈ filtered_df t fs ↔
      r ∈ t.rows
      ∧ (∃ d, r.issue_date = some d ∧ fs.lo ≤ d ∧ d ≤ fs.hi)
      ∧ (t.cols.genre = true → fs.genreSel ≠ [] → r.genre ∈ fs.genreSel)
      ∧ (t.cols.borrower_type = true → fs.borrowerTypeSel ≠ [] →
          r.borrower_type ∈ fs.borrowerTypeSel)
      ∧ (t.cols.student_batch = true → fs.studentBatchSel ≠ [] →
          r.student_batch ∈ fs.studentBatchSel)
      ∧ (t.cols.student_major = true → fs.studentMajorSel ≠ [] →
          r.student_major ∈ fs.studentMajorSel)
      ∧ (t.cols.borrower_age_group = true → fs.ageGroupSel ≠ [] →
          r.borrower_age_group ∈ fs.ageGroupSel) := by
  rw [mem_filtered_iff]
  simp only [hdate, datePred_iff, forall_const]

/-- C1 witness: a concrete fiction row issued on day 10 is in the view for
the interval [10, 15] with genre selection {Fiction}. -/
theorem C1_filtered_view_membership_witness :
    rowA ∈ filtered_df tableEx fsSel :=
  (C1_filtered_view_membership tableEx fsSel rowA rfl).mpr
    ⟨by decide, ⟨10, by decide, by decide, by decide⟩,
     by decide, by decide, by decide, by decide, by decide⟩

/-- C2: a categorical filter whose selection is empty matches every row:
for each of the five categorical filter columns, the filtered view under
an empty selection equals the view computed with that filter disabled
(column treated as absent), so no row is excluded on account of it. -/
theorem C2_empty_selection_matches_all (t : Table) (fs : FilterState) :
    (fs.genreSel = [] →
      filtered_df t fs = filtered_df { t with cols := { t.cols with genre := false } } fs)
    ∧ (fs.borrowerTypeSel = [] →
      filtered_df t fs = filtered_df { t with cols := { t.cols with borrower_type := false } } fs)
    ∧ (fs.studentBatchSel = [] →
      filtered_df t fs = filtered_df { t with cols := { t.cols with student_batch := false } } fs)
    ∧ (fs.studentMajorSel = [] →
      filtered_df t fs = filtered_df { t with cols := { t.cols with student_major := false } } fs)
    ∧ (fs.ageGroupSel = [] →
      filtered_df t fs = filtered_df { t with cols := { t.cols with borrower_age_group := false } } fs) := by
  refine ⟨?_, ?_, ?_, ?_, ?_⟩ <;> intro h <;>
    simp [filtered_df, dateStage, applyCatFilter, h]

/-- C2 witness: with the genre selection empty, the sample view equals the
view with the genre filter disabled. -/
theorem C2_empty_selection_matches_all_witness :
    filtered_df tableEx fsEmptySel =
      filtered_df { tableEx with cols := { tableEx.cols with genre := false } } fsEmptySel :=
  (C2_empty_selection_matches_all tableEx fsEmptySel).1 rfl

/-- C3 counterexample: on a table whose `borrower_id` column is absent the
metrics block raises a `KeyError` instead of silently omitting the Unique
Borrowers component, so the claim that every feature depending on a
missing optional column is silently omitted with no error is false. -/
theorem C3_missing_column_counterexample :
    metrics tableNoBorrower (filtered_df tableNoBorrower fsEmptySel) =
      Except.error "KeyError: borrower_id" := rfl

/-- C3 amended: a missing optional column silently omits its sidebar
filter and its chart, and the filter and chart stages raise no error; the
metrics strip however accesses `borrower_id`, `return_date` and
`overdue_status` unguarded, so it succeeds exactly when all three are
present and raises a `KeyError` otherwise. -/
theorem C3_missing_column_amended (t : Table) (fs : FilterState) :
    (t.cols.issue_date = false → "Date range" ∉ sidebarWidgets t
      ∧ Chart.monthlyIssues ∉ visualizations t (filtered_df t fs))
    ∧ (t.cols.genre = false → "Book Genres" ∉ sidebarWidgets t
      ∧ Chart.genrePie ∉ visualizations t (filtered_df t fs)
      ∧ Chart.avgLoanByGenre ∉ visualizations t (filtered_df t fs))
    ∧ (t.cols.borrower_type = false → "Borrower Types" ∉ sidebarWidgets t
      ∧ Chart.borrowerTypeBar ∉ visualizations t (filtered_df t fs))
    ∧ (t.cols.student_batch = false → "Student Batches" ∉ sidebarWidgets t)
    ∧ (t.cols.student_major = false → "Student Majors" ∉ sidebarWidgets t)
    ∧ (t.cols.borrower_age_group = false → "Age Groups" ∉ sidebarWidgets t)
    ∧ (t.cols.book_title = false → Chart.topBooks ∉ visualizations t (filtered_df t fs))
    ∧ (t.cols.days_on_loan = false → Chart.avgLoanByGenre ∉ visualizations t (filtered_df t fs))
    ∧ metricsOk t (filtered_df t fs) =
        (t.cols.borrower_id && t.cols.return_date && t.cols.overdue_status) := by
  refine ⟨?_, ?_, ?_, ?_, ?_, ?_, ?_, ?_, ?_⟩
  · intro h
    constructor
    · simp [sidebarWidgets, mem_if_singleton, h]
    · unfold visualizations
      split
      · simp
      · simp [mem_if_singleton, h]
  · intro h
    refine ⟨?_, ?_, ?_⟩
    · simp [sidebarWidgets, mem_if_singleton, h]
    · unfold visualizations
      split
      · simp
      · simp [mem_if_singleton, h]
    · unfold visualizations
      split
      · simp
      · simp [mem_if_singleton, h]
  · intro h
    constructor
    · simp [sidebarWidgets, mem_if_singleton, h]
    · unfold visualizations
      split
      · simp
      · simp [mem_if_singleton, h]
  · intro h
    simp [sidebarWidgets, mem_if_singleton, h]
  · intro h
    simp [sidebarWidgets, mem_if_singleton, h]
  · intro h
    simp [sidebarWidgets, mem_if_singleton, h]
  · intro h
    unfold visualizations
    split
    · simp
    · simp [mem_if_singleton, h]
  · intro h
    unfold visualizations
    split
    · simp
    · simp [mem_if_singleton, h]
  · cases hb : t.cols.borrower_id <;> cases hr : t.cols.return_date <;>
      cases ho : t.cols.overdue_status <;> simp [metricsOk, metrics, hb, hr, ho]

/-- C3 amended witness: on the sample table without a genre column, the
genre multiselect and the genre charts are omitted. -/
theorem C3_missing_column_amended_witness :
    "Book Genres" ∉ sidebarWidgets tableNoGenre
    ∧ Chart.genrePie ∉ visualizations tableNoGenre (filtered_df tableNoGenre fsEmptySel)
    ∧ Chart.avgLoanByGenre ∉ visualizations tableNoGenre (filtered_df tableNoGenre fsEmptySel) :=
  (C3_missing_column_amended tableNoGenre fsEmptySel).2.1 rfl

/-- C4: when `borrower_id`, `return_date` and `overdue_status` are
present, the metrics block yields (a) the number of rows of the view,
(b) the number of distinct `borrower_id` values in the view, (c) the
number of rows whose `return_date` is absent, and (d) the number of rows
whose `overdue_status` contains "Late" or "Overdue" as a case-sensitive
substring, an absent status never matching (rather than erroring). -/
theorem C4_metrics_values (t : Table) (v : List Row)
    (h1 : t.cols.borrower_id = true) (h2 : t.cols.return_date = true)
    (h3 : t.cols.overdue_status = true) :
    metrics t v = Except.ok
      (v.length,
       (v.filterMap Row.borrower_id).toFinset.card,
       v.countP (fun r => (r.return_date).isNone),
       v.countP (fun r => lateMask r.overdue_status))
    ∧ (∀ c : Option String, lateMask c = true ↔
        ∃ s, c = some s ∧ (occursIn "Late" s ∨ occursIn "Overdue" s)) := by
  constructor
  · simp [metrics, h1, h2, h3, nuniqueBorrower, countNotReturned, countLate,
      List.countP_map, List.card_toFinset]
    exact ⟨rfl, rfl⟩
  · intro c
    cases c with
    | none => simp [lateMask]
    | some s =>
      simp only [lateMask, Bool.or_eq_true, hasSubstr_iff, occursIn,
        Option.some.injEq]
      constructor
      · rintro (⟨a, b, h⟩ | ⟨a, b, h⟩)
        · exact ⟨s, rfl, Or.inl ⟨a, b, h⟩⟩
        · exact ⟨s, rfl, Or.inr ⟨a, b, h⟩⟩
      · rintro ⟨s2, rfl, (⟨a, b, h⟩ | ⟨a, b, h⟩)⟩
        · exact Or.inl ⟨a, b, h⟩
        · exact Or.inr ⟨a, b, h⟩

/-- C4 witness: the metrics of the two-row sample view. -/
theorem C4_metrics_values_witness :
    metrics tableEx [rowA, rowB] = Except.ok
      ([rowA, rowB].length,
       ([rowA, rowB].filterMap Row.borrower_id).toFinset.card,
       [rowA, rowB].countP (fun r => (r.return_date).isNone),
       [rowA, rowB].countP (fun r => lateMask r.overdue_status))
    ∧ (∀ c : Option String, lateMask c = true ↔
        ∃ s, c = some s ∧ (occursIn "Late" s ∨ occursIn "Overdue" s)) :=
  C4_metrics_values tableEx [rowA, rowB] rfl rfl rfl

/-- C5: the date-range filter is inclusive at both bounds: a row of the
table whose `issue_date` equals `lo` or `hi` exactly, and which the
categorical filters do not exclude, is retained in the filtered view. -/
theorem C5_inclusive_bounds (t : Table) (fs : FilterState) (r : Row)
    (hle : fs.lo ≤ fs.hi)
    (hr : r ∈ t.rows)
    (hd : r.issue_date = some fs.lo ∨ r.issue_date = some fs.hi)
    (hcat : (t.cols.genre = true → fs.genreSel ≠ [] → r.genre ∈ fs.genreSel)
      ∧ (t.cols.borrower_type = true → fs.borrowerTypeSel ≠ [] →
          r.borrower_type ∈ fs.borrowerTypeSel)
      ∧ (t.cols.student_batch = true → fs.studentBatchSel ≠ [] →
          r.student_batch ∈ fs.studentBatchSel)
      ∧ (t.cols.student_major = true → fs.studentMajorSel ≠ [] →
          r.student_major ∈ fs.studentMajorSel)
      ∧ (t.cols.borrower_age_group = true → fs.ageGroupSel ≠ [] →
          r.borrower_age_group ∈ fs.ageGroupSel)) :
    r ∈ filtered_df t fs := by
  rw [mem_filtered_iff]
  refine ⟨hr, ?_, hcat.1, hcat.2.1, hcat.2.2.1, hcat.2.2.2.1, hcat.2.2.2.2⟩
  intro _
  rcases hd with h | h <;> simp [datePred, h, hle]

/-- C5 witness: the sample row issued exactly on the lower bound of the
interval [10, 15] is retained. -/
theorem C5_inclusive_bounds_witness : rowA ∈ filtered_df tableEx fsBoundary :=
  C5_inclusive_bounds tableEx fsBoundary rowA (by decide) (by decide)
    (Or.inl (by decide))
    ⟨fun _ h => absurd rfl h, fun _ h => absurd rfl h, fun _ h => absurd rfl h,
     fun _ h => absurd rfl h, fun _ h => absurd rfl h⟩

/-- C6: for every filter state, the filtered view has at most as many rows
as the loaded table. -/
theorem C6_view_not_larger (t : Table) (fs : FilterState) :
    (filtered_df t fs).length ≤ t.rows.length :=
  (filtered_df_sublist t fs).length_le

/-- C7: an empty filtered view is non-fatal: no chart is rendered, no
export blob is produced or offered, and the metrics (on a table whose
metric columns are present, as the metrics strip requires) still compute,
yielding zeros. -/
theorem C7_empty_view_nonfatal (t : Table) (fs : FilterState)
    (h1 : t.cols.borrower_id = true) (h2 : t.cols.return_date = true)
    (h3 : t.cols.overdue_status = true)
    (hempty : filtered_df t fs = []) :
    visualizations t (filtered_df t fs) = []
    ∧ download t (filtered_df t fs) = none
    ∧ metrics t (filtered_df t fs) = Except.ok (0, 0, 0, 0) := by
  rw [hempty]
  refine ⟨rfl, rfl, ?_⟩
  simp [metrics, h1, h2, h3, nuniqueBorrower, countNotReturned, countLate]

/-- C7 witness: a genre selection matching no sample row empties the view;
charts and export are suppressed and the metrics are zeros. -/
theorem C7_empty_view_nonfatal_witness :
    visualizations tableEx (filtered_df tableEx fsNoMatch) = []
    ∧ download tableEx (filtered_df tableEx fsNoMatch) = none
    ∧ metrics tableEx (filtered_df tableEx fsNoMatch) = Except.ok (0, 0, 0, 0) :=
  C7_empty_view_nonfatal tableEx fsNoMatch rfl rfl rfl (by decide)

/-- C8: the export is deterministic and idempotent: serializing the
unchanged view twice yields identical blobs, and any two views with
identical content (same present columns, same rows) yield identical
blobs. -/
theorem C8_export_deterministic (t1 t2 : Table) (v1 v2 : List Row)
    (hcols : t1.cols = t2.cols) (hrows : v1 = v2) :
    (exportTwice t1 v1).1 = (exportTwice t1 v1).2
    ∧ convert_to_excel t1 v1 = convert_to_excel t2 v2 := by
  subst hrows
  refine ⟨rfl, ?_⟩
  simp [convert_to_excel, hcols]

/-- C8 witness: exporting the one-row sample view twice yields the same
blob, and equal content yields equal blobs. -/
theorem C8_export_deterministic_witness :
    (exportTwice tableEx [rowA]).1 = (exportTwice tableEx [rowA]).2
    ∧ convert_to_excel tableEx [rowA] = convert_to_excel tableEx [rowA] :=
  C8_export_deterministic tableEx tableEx [rowA] [rowA] rfl rfl

/-- C9: the filter pass never mutates the loaded table: after computing
the filtered view, the session's dataframe, and in particular every row
of it, is unchanged. -/
theorem C9_source_table_immutable (s : Session) (fs : FilterState) :
    (runFilters s fs).df = s.df ∧ (runFilters s fs).df.rows = s.df.rows :=
  ⟨rfl, rfl⟩

/-- C10: when `issue_date` is present, a row whose `issue_date` cell is
missing is excluded from the filtered view for every interval `[lo, hi]`:
the range mask is never satisfied by a missing date. -/
theorem C10_null_issue_date_excluded (t : Table) (fs : FilterState) (r : Row)
    (hdate : t.cols.issue_date = true) (hnull : r.issue_date = none) :
    r ∉ filtered_df t fs := by
  intro hmem
  have h := (mem_filtered_iff t fs r).mp hmem
  have hd := h.2.1 hdate
  rw [hnull] at hd
  simp [datePred] at hd

/-- C10 witness: the sample row with a missing issue date is excluded even
under the widest sample interval and all-empty selections. -/
theorem C10_null_issue_date_excluded_witness :
    rowND ∉ filtered_df tableWithND fsEmptySel :=
  C10_null_issue_date_excluded tableWithND fsEmptySel rowND rfl rfl
